import Mathlib

/-
Shallow embedding of the ev-charging-simulator core
(src/_events.py, src/_user.py, src/_user_archetype.py,
src/_user_controller.py, src/_simulator.py).

Modelling conventions:
- Python `datetime` instants are integer seconds.  `datetime.combine(d, t)`
  becomes `d * 86400 + t`, `.date()` is Euclidean division by 86400 and
  `.time()` the Euclidean remainder (Python's floor semantics for a
  positive modulus).
- Python floats are modelled as real numbers; `math.tanh` is `Real.tanh`.
- The append-only `EventStream` is a `List Event` extended at the tail.
- Exceptions (the `try`/`except` blocks of the controller) are modelled
  with `Except Unit`: an operation that would raise in Python returns
  `.error ()` and no new state, matching the fact that in this code every
  raising statement executes before any state mutation of the same call.
- Logging calls are side effects with no influence on state and are not
  modelled.
-/

namespace EVSim

open Classical

/-! ## Time (integer seconds; Python datetime calendar arithmetic) -/

def dtDate (t : ℤ) : ℤ := t / 86400

def dtTime (t : ℤ) : ℤ := t % 86400

def dtCombine (d tod : ℤ) : ℤ := d * 86400 + tod

/-! ## Events (src/_events.py) -/

inductive EventType where
  | START_CHARGING
  | STOP_CHARGING
  | REPORT_SOC
  | REPORT_CHARGE_STATUS
  | REPORT_POWER_DRAW
deriving DecidableEq

/-- `Event` from src/_events.py: an event kind, a timestamp and the
kind-specific keyword payloads that the source ever sets
(`soc_pcnt`, `is_charging`, `power_draw_kw`). -/
structure Event where
  event_type : EventType
  timestamp : ℤ
  soc_pcnt : Option ℝ
  is_charging : Option Bool
  power_draw_kw : Option ℝ

/-- `EventStream.last_reported_soc`: scan from the tail for the most
recent REPORT_SOC event (None when there is none). -/
def last_reported_soc (es : List Event) : Option Event :=
  es.reverse.find? (fun e => decide (e.event_type = EventType.REPORT_SOC))

def append_start_charging (es : List Event) (timestamp : ℤ) (soc_pcnt : ℝ) : List Event :=
  es ++ [⟨EventType.START_CHARGING, timestamp, some soc_pcnt, none, none⟩]

def append_stop_charging (es : List Event) (timestamp : ℤ) (soc_pcnt : ℝ) : List Event :=
  es ++ [⟨EventType.STOP_CHARGING, timestamp, some soc_pcnt, none, none⟩]

def append_report_soc (es : List Event) (timestamp : ℤ) (soc_pcnt : ℝ) : List Event :=
  es ++ [⟨EventType.REPORT_SOC, timestamp, some soc_pcnt, none, none⟩]

def append_report_charge_status (es : List Event) (timestamp : ℤ) (charging : Bool) : List Event :=
  es ++ [⟨EventType.REPORT_CHARGE_STATUS, timestamp, none, some charging, none⟩]

def append_report_power_draw (es : List Event) (timestamp : ℤ) (kw : ℝ) : List Event :=
  es ++ [⟨EventType.REPORT_POWER_DRAW, timestamp, none, none, some kw⟩]

/-! ## Archetype schedule resolution (src/_user_archetype.py) -/

/-- `UserArchetype._calculate_plug_out_datetime`: add one day when the
plug-out time-of-day is strictly earlier than the plug-in time-of-day. -/
def _calculate_plug_out_datetime (plug_in_dt : ℤ) (plug_out_time : ℤ) : ℤ :=
  if plug_out_time < dtTime plug_in_dt then
    dtCombine (dtDate plug_in_dt + 1) plug_out_time
  else
    dtCombine (dtDate plug_in_dt) plug_out_time

/-! ## User (src/_user.py) -/

/-- Mutable agent state plus the archetype parameters the core logic
reads.  Carried-through archetype fields that no core method consults
(miles/efficiency/frequency, name, population share, ...) are omitted. -/
structure User where
  battery_kwh : ℝ
  charger_kw : ℝ
  target_soc_pcnt : ℝ
  plug_in_soc_pcnt : ℝ
  plug_in_datetime : ℤ
  plug_out_datetime : ℤ
  current_time : ℤ
  event_stream : List Event
  is_charging : Bool
  current_charge_pcnt : ℝ

/-- `User.__init__` together with `UserArchetype.__init__`:
`plug_in_datetime = combine(today, plug_in_time)`, plug-out resolved by
`_calculate_plug_out_datetime`, SOC initialised to `plug_in_soc_pcnt`,
not charging, and one initial REPORT_SOC event appended. -/
def mkUser (battery_kwh charger_kw target_soc_pcnt plug_in_soc_pcnt : ℝ)
    (today plug_in_time plug_out_time current_time : ℤ) : User :=
  let plug_in_dt := dtCombine today plug_in_time
  { battery_kwh := battery_kwh
    charger_kw := charger_kw
    target_soc_pcnt := target_soc_pcnt
    plug_in_soc_pcnt := plug_in_soc_pcnt
    plug_in_datetime := plug_in_dt
    plug_out_datetime := _calculate_plug_out_datetime plug_in_dt plug_out_time
    current_time := current_time
    event_stream := [⟨EventType.REPORT_SOC, current_time, some plug_in_soc_pcnt, none, none⟩]
    is_charging := false
    current_charge_pcnt := plug_in_soc_pcnt }

/-- Setter of the `current_time` property. -/
def set_current_time (u : User) (t : ℤ) : User := { u with current_time := t }

/-- `User.should_be_charging`: inside the plug-in window and below the
target SOC.  A pure read: it is a function of the state only. -/
def User.should_be_charging (u : User) : Prop :=
  (u.plug_in_datetime ≤ u.current_time ∧ u.current_time ≤ u.plug_out_datetime) ∧
    u.current_charge_pcnt < u.target_soc_pcnt

/-- `User.start_charging`: no-op when already charging, otherwise set the
flag and append START_CHARGING then REPORT_SOC at the current time/SOC. -/
def User.start_charging (u : User) : User :=
  if u.is_charging then u
  else
    { u with
      is_charging := true
      event_stream :=
        append_report_soc
          (append_start_charging u.event_stream u.current_time u.current_charge_pcnt)
          u.current_time u.current_charge_pcnt }

/-- `User.stop_charging`: no-op when already not charging, otherwise clear
the flag and append STOP_CHARGING then REPORT_SOC at the current time/SOC. -/
def User.stop_charging (u : User) : User :=
  if !u.is_charging then u
  else
    { u with
      is_charging := false
      event_stream :=
        append_report_soc
          (append_stop_charging u.event_stream u.current_time u.current_charge_pcnt)
          u.current_time u.current_charge_pcnt }

/-- `User._current_charger_kw`: tanh taper of the nominal charger power. -/
noncomputable def User._current_charger_kw (u : User) : ℝ :=
  let inverted_charge := 1 - u.current_charge_pcnt / 100
  let tanh_output := Real.tanh inverted_charge
  let shifted_tanh := 0.5 * (tanh_output + 1)
  u.charger_kw * shifted_tanh

/-- `User._update_soc`: while charging, integrate the tapered power over
the time since the last REPORT_SOC event.  The (unreachable after
construction) `none` branch stands for the Python AttributeError raised
before any state is written, so it returns the state unchanged. -/
noncomputable def User._update_soc (u : User) : User :=
  match last_reported_soc u.event_stream with
  | none => u
  | some last =>
    let time_since_last_report : ℤ := u.current_time - last.timestamp
    if u.is_charging then
      let should_have_added_kwh :=
        User._current_charger_kw u * ((time_since_last_report : ℝ) / 3600)
      { u with current_charge_pcnt :=
          u.current_charge_pcnt + 100 * (should_have_added_kwh / u.battery_kwh) }
    else u

/-- `User.update_and_report_soc`: update the SOC, then append REPORT_SOC,
REPORT_CHARGE_STATUS and (when charging) REPORT_POWER_DRAW events. -/
noncomputable def User.update_and_report_soc (u : User) : User :=
  let u1 := User._update_soc u
  let es1 := append_report_soc u1.event_stream u1.current_time u1.current_charge_pcnt
  let es2 := append_report_charge_status es1 u1.current_time u1.is_charging
  let es3 :=
    if u1.is_charging then
      append_report_power_draw es2 u1.current_time (User._current_charger_kw u1)
    else es2
  { u1 with event_stream := es3 }

/-! ## Exception model for the per-agent tick body

In `UserController.update_soc` the guarded call is
`user.update_and_report_soc()`.  Reading the body of that call, the only
statements that can raise are, in order: the attribute access
`last_reported_soc.timestamp` when no REPORT_SOC event exists
(AttributeError on None), and the float division by `battery_kwh` when it
is zero and the agent is charging (ZeroDivisionError).  Both raise before
any assignment of the call executes, so a raising call changes no state. -/

/-- `user.update_and_report_soc()` as a fallible call: `.error ()` exactly
when the Python call would raise, `.ok` of the updated state otherwise. -/
noncomputable def update_and_report_socE (u : User) : Except Unit User :=
  if last_reported_soc u.event_stream = none ∨ (u.is_charging = true ∧ u.battery_kwh = 0) then
    Except.error ()
  else
    Except.ok (User.update_and_report_soc u)

/-- Body of the `update_charge_status` loop (after the clock assignment):
`if should_be_charging: start; elif not should_be_charging and
is_charging: stop`.  None of its statements can raise, so it is `.ok`. -/
noncomputable def charge_decisionE (u : User) : Except Unit User :=
  Except.ok
    (if u.should_be_charging then u.start_charging
     else if ¬u.should_be_charging ∧ u.is_charging then u.stop_charging
     else u)

/-! ## Controller (src/_user_controller.py) -/

/-- One iteration of a controller loop: set the agent's clock to `t`,
run the guarded body `f`; on an exception keep the state from just before
the failing call (the clock assignment cannot raise and has already
happened). -/
def tick_one (f : User → Except Unit User) (t : ℤ) (u : User) : User :=
  let u1 := set_current_time u t
  match f u1 with
  | Except.ok v => v
  | Except.error _ => u1

/-- The `for user in self.user_archetypes: try ... except ... continue`
loop shared by both controller methods. -/
def controller_tick (f : User → Except Unit User) (t : ℤ) : List User → List User
  | [] => []
  | u :: rest => tick_one f t u :: controller_tick f t rest

/-- `UserController.update_charge_status`. -/
noncomputable def UserController.update_charge_status (t : ℤ) (users : List User) : List User :=
  controller_tick charge_decisionE t users

/-- `UserController.update_soc`. -/
noncomputable def UserController.update_soc (t : ℤ) (users : List User) : List User :=
  controller_tick update_and_report_socE t users

/-! ## Simulator (src/_simulator.py) -/

/-- `Simulator._step`: SOC update first, then the charge decisions. -/
noncomputable def Simulator.step (t : ℤ) (users : List User) : List User :=
  UserController.update_charge_status t (UserController.update_soc t users)

/-- The times at which `Simulator.run` executes `_step`: the loop
`while current_time < end_time: ...; current_time += td`. -/
def tick_times (td : ℤ) (h : 0 < td) (end_time cur : ℤ) : List ℤ :=
  if cur < end_time then cur :: tick_times td h end_time (cur + td) else []
termination_by (end_time - cur).toNat
decreasing_by simp_wf; omega

/-- `Simulator.run` (its plotting epilogue is out of scope): step at the
current time while it is before `end_time`, advancing by `td` each pass. -/
noncomputable def Simulator.run_from (td : ℤ) (h : 0 < td) (end_time cur : ℤ)
    (users : List User) : List User :=
  if cur < end_time then
    Simulator.run_from td h end_time (cur + td) (Simulator.step cur users)
  else users
termination_by (end_time - cur).toNat
decreasing_by simp_wf; omega

/-! ## Facts about `Real.tanh` used by the power-curve claims -/

lemma tanh_eq_one_sub (x : ℝ) :
    Real.tanh x = 1 - 2 / (Real.exp (2 * x) + 1) := by
  have hE : 0 < Real.exp x := Real.exp_pos x
  have hEne : Real.exp x ≠ 0 := ne_of_gt hE
  have h2 : Real.exp (2 * x) = Real.exp x * Real.exp x := by
    rw [two_mul, Real.exp_add]
  rw [Real.tanh_eq_sinh_div_cosh, Real.sinh_eq, Real.cosh_eq, Real.exp_neg, h2]
  have hden : Real.exp x + (Real.exp x)⁻¹ ≠ 0 := by positivity
  have hden2 : Real.exp x * Real.exp x + 1 ≠ 0 := by positivity
  field_simp
  ring

lemma tanh_lt_one (x : ℝ) : Real.tanh x < 1 := by
  rw [tanh_eq_one_sub]
  have h : 0 < Real.exp (2 * x) + 1 := by positivity
  have : 0 < 2 / (Real.exp (2 * x) + 1) := by positivity
  linarith

lemma neg_one_lt_tanh (x : ℝ) : -1 < Real.tanh x := by
  rw [tanh_eq_one_sub]
  have hpos : 0 < Real.exp (2 * x) := Real.exp_pos _
  have h : 0 < Real.exp (2 * x) + 1 := by positivity
  have : 2 / (Real.exp (2 * x) + 1) < 2 := by
    rw [div_lt_iff₀ h]; linarith
  linarith

lemma tanh_strictMono : StrictMono Real.tanh := by
  intro x y hxy
  rw [tanh_eq_one_sub, tanh_eq_one_sub]
  have hx : 0 < Real.exp (2 * x) + 1 := by positivity
  have hlt : Real.exp (2 * x) + 1 < Real.exp (2 * y) + 1 := by
    have := Real.exp_lt_exp_of_lt (by linarith : 2 * x < 2 * y)
    linarith
  have : 2 / (Real.exp (2 * y) + 1) < 2 / (Real.exp (2 * x) + 1) :=
    div_lt_div_of_pos_left (by norm_num) hx hlt
  linarith

lemma tanh_le_two_mul (x : ℝ) (hx : 0 ≤ x) : Real.tanh x ≤ 2 * x := by
  rcases le_or_lt (1 / 2) x with hhalf | hhalf
  · have := tanh_lt_one x
    linarith
  · rw [tanh_eq_one_sub]
    set t := Real.exp (2 * x) with ht
    have htpos : 0 < t := Real.exp_pos _
    have hs : 1 - 2 * x ≤ t⁻¹ := by
      have h1 : -(2 * x) + 1 ≤ Real.exp (-(2 * x)) := Real.add_one_le_exp (-(2 * x))
      rw [Real.exp_neg] at h1
      linarith
    have hmul : (1 - 2 * x) * t ≤ 1 := by
      have := mul_le_mul_of_nonneg_right hs (le_of_lt htpos)
      rwa [inv_mul_cancel₀ (ne_of_gt htpos)] at this
    have hden : 0 < t + 1 := by linarith
    rw [sub_le_iff_le_add, ← sub_le_iff_le_add', le_div_iff₀ hden]
    nlinarith

lemma tanh_nonneg_of_nonneg (x : ℝ) (hx : 0 ≤ x) : 0 ≤ Real.tanh x := by
  have := tanh_strictMono.monotone hx
  rwa [Real.tanh_zero] at this

/-! ## Claim C2: the effective-power formula -/

/-- Spec-side formula for the effective power, written exactly as the spec
does: `P_eff = charger_power_kw × 0.5 × (tanh(f) + 1)` with
`f = 1 − currentChargePct/100`. -/
noncomputable def P_eff_spec (charger_power_kw current_charge_pct : ℝ) : ℝ :=
  charger_power_kw * 0.5 * (Real.tanh (1 - current_charge_pct / 100) + 1)

/-- C2: for every user, the code's effective charging power
`_current_charger_kw` equals the spec's
`charger_kw × 0.5 × (tanh(1 − soc/100) + 1)`. -/
theorem C2_effective_power_formula (u : User) :
    User._current_charger_kw u = P_eff_spec u.charger_kw u.current_charge_pcnt := by
  unfold User._current_charger_kw P_eff_spec
  ring

/-! ## Claim C3: bounds and strict monotonicity of the power curve -/

/-- C3: for SOC values in [0, 100] and a positive nominal power, the
effective power lies strictly between 0 and the nominal power, and is
strictly decreasing in the SOC (shown on two users sharing the same
nominal power). -/
theorem C3_power_curve_bounds (u v : User)
    (hc : 0 < u.charger_kw) (hcv : v.charger_kw = u.charger_kw)
    (hu0 : 0 ≤ u.current_charge_pcnt) (hu1 : u.current_charge_pcnt ≤ 100)
    (hv0 : 0 ≤ v.current_charge_pcnt) (hv1 : v.current_charge_pcnt ≤ 100) :
    (0 < User._current_charger_kw u ∧ User._current_charger_kw u < u.charger_kw) ∧
    (u.current_charge_pcnt < v.current_charge_pcnt →
      User._current_charger_kw v < User._current_charger_kw u) := by
  unfold User._current_charger_kw
  have hlo := neg_one_lt_tanh (1 - u.current_charge_pcnt / 100)
  have hhi := tanh_lt_one (1 - u.current_charge_pcnt / 100)
  constructor
  · constructor
    · have : 0 < 0.5 * (Real.tanh (1 - u.current_charge_pcnt / 100) + 1) := by nlinarith
      exact mul_pos hc this
    · have : 0.5 * (Real.tanh (1 - u.current_charge_pcnt / 100) + 1) < 1 := by nlinarith
      nlinarith
  · intro hlt
    have harg : 1 - v.current_charge_pcnt / 100 < 1 - u.current_charge_pcnt / 100 := by
      linarith
    have htanh := tanh_strictMono harg
    rw [hcv]
    nlinarith

/-- Concrete users exercising the power-curve claims: nominal power 2 kW at
SOC 0 and SOC 100. -/
def curveUserLo : User :=
  { battery_kwh := 50, charger_kw := 2, target_soc_pcnt := 80, plug_in_soc_pcnt := 20
    plug_in_datetime := 0, plug_out_datetime := 0, current_time := 0
    event_stream := [], is_charging := false, current_charge_pcnt := 0 }

def curveUserHi : User :=
  { battery_kwh := 50, charger_kw := 2, target_soc_pcnt := 80, plug_in_soc_pcnt := 20
    plug_in_datetime := 0, plug_out_datetime := 0, current_time := 0
    event_stream := [], is_charging := false, current_charge_pcnt := 100 }

/-- Witness for C3 at SOC 0 vs SOC 100 with nominal power 2 kW. -/
theorem C3_power_curve_bounds_witness :
    (0 : ℝ) < curveUserLo.charger_kw ∧ curveUserHi.charger_kw = curveUserLo.charger_kw ∧
    (0 : ℝ) ≤ curveUserLo.current_charge_pcnt ∧ curveUserLo.current_charge_pcnt ≤ 100 ∧
    (0 : ℝ) ≤ curveUserHi.current_charge_pcnt ∧ curveUserHi.current_charge_pcnt ≤ 100 ∧
    ((0 < User._current_charger_kw curveUserLo ∧
      User._current_charger_kw curveUserLo < curveUserLo.charger_kw) ∧
     (curveUserLo.current_charge_pcnt < curveUserHi.current_charge_pcnt →
       User._current_charger_kw curveUserHi < User._current_charger_kw curveUserLo)) := by
  refine ⟨by norm_num [curveUserLo], rfl, by norm_num [curveUserLo], by norm_num [curveUserLo],
    by norm_num [curveUserHi], by norm_num [curveUserHi], ?_⟩
  exact C3_power_curve_bounds curveUserLo curveUserHi (by norm_num [curveUserLo]) rfl
    (by norm_num [curveUserLo]) (by norm_num [curveUserLo])
    (by norm_num [curveUserHi]) (by norm_num [curveUserHi])

/-! ## Claim C4: the high-SOC taper

The claim says the effective power tapers toward zero as the SOC
approaches 100%.  It does not: at SOC = 100 the headroom is 0,
`tanh 0 = 0`, and the effective power is `charger_kw × 0.5` — half the
nominal power, the infimum of the curve on [0, 100]. -/

/-- A user at exactly 100% SOC with nominal power 1 kW. -/
def c4user : User :=
  { battery_kwh := 50, charger_kw := 1, target_soc_pcnt := 80, plug_in_soc_pcnt := 20
    plug_in_datetime := 0, plug_out_datetime := 0, current_time := 0
    event_stream := [], is_charging := true, current_charge_pcnt := 100 }

/-- C4 counterexample: with nominal power 1 kW, the claim requires the
effective power at SOC = 100 itself to be below every positive ε, but at
SOC = 100 the code yields exactly 0.5 kW (so it is not below ε = 1/4). -/
theorem C4_counterexample :
    c4user.charger_kw = 1 ∧ c4user.current_charge_pcnt = 100 ∧
    User._current_charger_kw c4user = 0.5 ∧
    ¬(∀ ε : ℝ, 0 < ε → User._current_charger_kw c4user < ε) := by
  have hval : User._current_charger_kw c4user = 0.5 := by
    unfold User._current_charger_kw c4user
    norm_num
  refine ⟨rfl, rfl, hval, fun h => ?_⟩
  have h2 := h (1 / 4) (by norm_num)
  rw [hval] at h2
  norm_num at h2

/-- C4 amended: for every positive nominal power `c`, the effective power
tapers toward `c × 0.5` (not zero) as the SOC approaches 100: for every
ε > 0 there is a SOC threshold below 100 past which (and at 100 itself)
the power is below `c × 0.5 + ε`, and at SOC = 100 it equals `c × 0.5`
exactly. -/
theorem C4_taper_to_half (c : ℝ) (hc : 0 < c) :
    (∀ ε : ℝ, 0 < ε → ∃ δ : ℝ, δ < 100 ∧
      ∀ u : User, u.charger_kw = c → δ < u.current_charge_pcnt →
        u.current_charge_pcnt ≤ 100 →
        User._current_charger_kw u < c * 0.5 + ε) ∧
    (∀ u : User, u.charger_kw = c → u.current_charge_pcnt = 100 →
      User._current_charger_kw u = c * 0.5) := by
  constructor
  · intro ε hε
    refine ⟨100 - 100 * (ε / c), by nlinarith [div_pos hε hc], ?_⟩
    intro u hcu hδ h100
    unfold User._current_charger_kw
    set f := 1 - u.current_charge_pcnt / 100 with hf
    have hf0 : 0 ≤ f := by rw [hf]; linarith
    have hfε : f < ε / c := by rw [hf]; nlinarith [div_pos hε hc]
    have htanh := tanh_le_two_mul f hf0
    have hεc : c * f < ε := by
      have := (lt_div_iff₀ hc).mp hfε
      nlinarith
    rw [hcu]
    nlinarith
  · intro u hcu h100
    unfold User._current_charger_kw
    rw [hcu, h100]
    norm_num

/-- Witness for the amended C4 at nominal power 1 kW and the SOC-100 user:
the effective power there is exactly 0.5 kW. -/
theorem C4_taper_to_half_witness :
    (0 : ℝ) < 1 ∧ User._current_charger_kw c4user = 1 * 0.5 :=
  ⟨by norm_num, (C4_taper_to_half 1 (by norm_num)).2 c4user rfl rfl⟩

/-! ## Claim C1: the SOC update -/

/-- C1: when charging, `_update_soc` increases the SOC by exactly
`100 × (P_eff × Δt / 3600) / battery_kwh`, where `Δt` is the time since
the most recent REPORT_SOC event and `P_eff` the effective power at the
pre-update SOC; when not charging the SOC is unchanged regardless of
elapsed time; and at `Δt = 0` the energy added is zero (the reals have no
division error to raise, matching the code where the divisors are 3600 and
`battery_kwh`, not `Δt`). -/
theorem C1_update_soc (u : User) (e : Event)
    (h : last_reported_soc u.event_stream = some e) :
    (u.is_charging = true →
      (User._update_soc u).current_charge_pcnt =
        u.current_charge_pcnt +
          100 * (User._current_charger_kw u *
              ((u.current_time - e.timestamp : ℤ) : ℝ) / 3600) / u.battery_kwh) ∧
    (u.is_charging = false →
      (User._update_soc u).current_charge_pcnt = u.current_charge_pcnt) ∧
    (u.current_time = e.timestamp →
      (User._update_soc u).current_charge_pcnt = u.current_charge_pcnt) := by
  unfold User._update_soc
  rw [h]
  refine ⟨fun hc => ?_, fun hc => ?_, fun h0 => ?_⟩
  · simp only [hc, if_true]
    ring
  · simp only [hc, Bool.false_eq_true, if_false]
  · cases hc : u.is_charging
    · simp [hc]
    · simp only [hc, if_true, h0]
      simp

/-- A REPORT_SOC event at time 0 with SOC 50. -/
def socEvent0 : Event := ⟨EventType.REPORT_SOC, 0, some 50, none, none⟩

/-- A charging user one hour past `socEvent0`. -/
def chargingUser : User :=
  { battery_kwh := 50, charger_kw := 7, target_soc_pcnt := 80, plug_in_soc_pcnt := 20
    plug_in_datetime := 0, plug_out_datetime := 7200, current_time := 3600
    event_stream := [socEvent0], is_charging := true, current_charge_pcnt := 50 }

/-- Witness for C1 on `chargingUser`, whose stream's most recent (and
only) REPORT_SOC event is `socEvent0`. -/
theorem C1_update_soc_witness :
    last_reported_soc chargingUser.event_stream = some socEvent0 ∧
    ((chargingUser.is_charging = true →
      (User._update_soc chargingUser).current_charge_pcnt =
        chargingUser.current_charge_pcnt +
          100 * (User._current_charger_kw chargingUser *
              ((chargingUser.current_time - socEvent0.timestamp : ℤ) : ℝ) / 3600) /
            chargingUser.battery_kwh) ∧
     (chargingUser.is_charging = false →
      (User._update_soc chargingUser).current_charge_pcnt =
        chargingUser.current_charge_pcnt) ∧
     (chargingUser.current_time = socEvent0.timestamp →
      (User._update_soc chargingUser).current_charge_pcnt =
        chargingUser.current_charge_pcnt)) := by
  have h : last_reported_soc chargingUser.event_stream = some socEvent0 := by
    simp [last_reported_soc, chargingUser, socEvent0]
  exact ⟨h, C1_update_soc chargingUser socEvent0 h⟩

/-! ## Claim C5: the charging predicate -/

/-- C5: `should_be_charging` holds exactly when the current time lies in
the plug-in window and the SOC is below the target.  In this embedding it
is a pure function of the state, mirroring the fact that the Python
property only reads attributes and mutates nothing.  Additionally, a
freshly constructed user whose target SOC equals its plug-in SOC is not
told to charge. -/
theorem C5_should_be_charging :
    (∀ u : User,
      u.should_be_charging ↔
        ((u.plug_in_datetime ≤ u.current_time ∧
            u.current_time ≤ u.plug_out_datetime) ∧
          u.current_charge_pcnt < u.target_soc_pcnt)) ∧
    (∀ (b c tgt pis : ℝ) (today pit pot ct : ℤ), tgt = pis →
      ¬(mkUser b c tgt pis today pit pot ct).should_be_charging) := by
  constructor
  · intro u
    exact Iff.rfl
  · intro b c tgt pis today pit pot ct htgt hcontra
    rcases hcontra with ⟨_, hlt⟩
    simp only [mkUser, htgt] at hlt
    exact lt_irrefl _ hlt

/-- Witness for C5: a fresh user with target SOC = plug-in SOC = 30 is not
told to charge. -/
theorem C5_should_be_charging_witness :
    ¬(mkUser 50 7 30 30 0 0 0 0).should_be_charging :=
  C5_should_be_charging.2 50 7 30 30 0 0 0 0 rfl

/-! ## Claim C6: idempotence of start_charging -/

/-- Number of START_CHARGING events in a stream. -/
def count_start (es : List Event) : ℕ :=
  (es.filter (fun e => decide (e.event_type = EventType.START_CHARGING))).length

lemma start_charging_of_charging (u : User) (h : u.is_charging = true) :
    u.start_charging = u := by
  simp [User.start_charging, h]

lemma stop_charging_of_not_charging (u : User) (h : u.is_charging = false) :
    u.stop_charging = u := by
  simp [User.stop_charging, h]

lemma start_charging_spec (u : User) (h : u.is_charging = false) :
    u.start_charging.is_charging = true ∧
    u.start_charging.event_stream =
      u.event_stream ++
        [⟨EventType.START_CHARGING, u.current_time, some u.current_charge_pcnt,
            none, none⟩,
         ⟨EventType.REPORT_SOC, u.current_time, some u.current_charge_pcnt,
            none, none⟩] := by
  constructor
  · simp [User.start_charging, h]
  · simp [User.start_charging, h, append_start_charging, append_report_soc]

lemma stop_charging_spec (u : User) (h : u.is_charging = true) :
    u.stop_charging.is_charging = false ∧
    u.stop_charging.event_stream =
      u.event_stream ++
        [⟨EventType.STOP_CHARGING, u.current_time, some u.current_charge_pcnt,
            none, none⟩,
         ⟨EventType.REPORT_SOC, u.current_time, some u.current_charge_pcnt,
            none, none⟩] := by
  constructor
  · simp [User.stop_charging, h]
  · simp [User.stop_charging, h, append_stop_charging, append_report_soc]

/-- C6: `start_charging` on a charging user changes nothing; on a
non-charging user it sets the flag and appends exactly one START_CHARGING
and one REPORT_SOC event, both stamped with the current time and SOC; a
second call is a no-op, so two calls in a row add exactly one
START_CHARGING event and leave the state charging. -/
theorem C6_start_charging_idempotent (u : User) :
    (u.is_charging = true → u.start_charging = u) ∧
    (u.is_charging = false →
      u.start_charging.is_charging = true ∧
      u.start_charging.event_stream =
        u.event_stream ++
          [⟨EventType.START_CHARGING, u.current_time, some u.current_charge_pcnt,
              none, none⟩,
           ⟨EventType.REPORT_SOC, u.current_time, some u.current_charge_pcnt,
              none, none⟩]) ∧
    u.start_charging.start_charging = u.start_charging ∧
    u.start_charging.start_charging.is_charging = true ∧
    (u.is_charging = false →
      count_start u.start_charging.start_charging.event_stream =
        count_start u.event_stream + 1) := by
  cases hc : u.is_charging with
  | false =>
    obtain ⟨h1, h2⟩ := start_charging_spec u hc
    have h3 : u.start_charging.start_charging = u.start_charging :=
      start_charging_of_charging _ h1
    refine ⟨fun hf => by simp [hc] at hf, fun _ => ⟨h1, h2⟩, h3, by rw [h3]; exact h1,
      fun _ => ?_⟩
    rw [h3, h2]
    simp [count_start, List.filter_append]
  | true =>
    have h0 : u.start_charging = u := start_charging_of_charging u hc
    exact ⟨fun _ => h0, fun hf => by simp [hc] at hf, by rw [h0, h0],
      by rw [h0, h0]; exact hc, fun hf => by simp [hc] at hf⟩

/-- Witness for C6 on a non-charging user (`curveUserLo`): two calls in a
row leave it charging having added exactly one START_CHARGING event. -/
theorem C6_start_charging_idempotent_witness :
    curveUserLo.is_charging = false ∧
    curveUserLo.start_charging.start_charging.is_charging = true ∧
    count_start curveUserLo.start_charging.start_charging.event_stream =
      count_start curveUserLo.event_stream + 1 :=
  ⟨rfl, (C6_start_charging_idempotent curveUserLo).2.2.2.1,
    (C6_start_charging_idempotent curveUserLo).2.2.2.2 rfl⟩

/-! ## Claim C7: plug-out day rollover -/

/-- C7: resolving the plug-out instant adds exactly one day iff the
plug-out time-of-day is strictly earlier than the plug-in time-of-day;
with plug-in 22:00 and plug-out 06:00 the resolved instant is exactly
8 hours after plug-in, on the following calendar day. -/
theorem C7_plug_out_rollover (d pin pod : ℤ) :
    (0 ≤ pin → pin < 86400 → 0 ≤ pod → pod < 86400 →
      _calculate_plug_out_datetime (dtCombine d pin) pod =
        dtCombine (d + (if pod < pin then 1 else 0)) pod ∧
      (dtDate (_calculate_plug_out_datetime (dtCombine d pin) pod) = d + 1 ↔
        pod < pin)) ∧
    (_calculate_plug_out_datetime (dtCombine d (22 * 3600)) (6 * 3600) =
        dtCombine d (22 * 3600) + 8 * 3600 ∧
      dtDate (_calculate_plug_out_datetime (dtCombine d (22 * 3600)) (6 * 3600)) =
        d + 1) := by
  constructor
  · intro h1 h2 h3 h4
    unfold _calculate_plug_out_datetime dtTime dtDate dtCombine
    constructor
    · split_ifs <;> omega
    · split_ifs <;> omega
  · unfold _calculate_plug_out_datetime dtTime dtDate dtCombine
    constructor
    · split_ifs <;> omega
    · split_ifs <;> omega

/-- Witness for C7 with day 0, plug-in 22:00 (79200 s), plug-out 06:00
(21600 s). -/
theorem C7_plug_out_rollover_witness :
    (0 : ℤ) ≤ 79200 ∧ (79200 : ℤ) < 86400 ∧ (0 : ℤ) ≤ 21600 ∧ (21600 : ℤ) < 86400 ∧
    (_calculate_plug_out_datetime (dtCombine 0 79200) 21600 =
        dtCombine (0 + (if (21600 : ℤ) < 79200 then 1 else 0)) 21600 ∧
      (dtDate (_calculate_plug_out_datetime (dtCombine 0 79200) 21600) = 0 + 1 ↔
        (21600 : ℤ) < 79200)) :=
  ⟨by decide, by decide, by decide, by decide,
    (C7_plug_out_rollover 0 79200 21600).1 (by decide) (by decide) (by decide) (by decide)⟩

/-! ## Claim C8: per-agent fault isolation in the controller -/

lemma controller_tick_eq_map (f : User → Except Unit User) (t : ℤ) :
    ∀ users : List User, controller_tick f t users = users.map (tick_one f t) := by
  intro users
  induction users with
  | nil => rfl
  | cons u rest ih => simp [controller_tick, ih]

/-- C8: each controller tick operation processes every agent of the list
independently (it is a pointwise map, so one agent's exception never
prevents the processing of the remaining agents); when the guarded body
raises on an agent, that agent keeps exactly the state it had before the
failing call — the clock set to the tick time and nothing else changed,
so it merely misses that tick's events.  The last part exhibits the
concrete raising case of this code: `update_and_report_soc` on a charging
agent with a zero battery capacity (Python ZeroDivisionError).  The
accompanying log line carries no state and is outside the embedding. -/
theorem C8_fault_isolation (t : ℤ) (users : List User) :
    UserController.update_soc t users = users.map (tick_one update_and_report_socE t) ∧
    UserController.update_charge_status t users =
      users.map (tick_one charge_decisionE t) ∧
    (∀ (f : User → Except Unit User) (u : User),
      f (set_current_time u t) = Except.error () →
      tick_one f t u = set_current_time u t) ∧
    (∀ u : User, u.is_charging = true → u.battery_kwh = 0 →
      update_and_report_socE (set_current_time u t) = Except.error ()) := by
  refine ⟨controller_tick_eq_map _ t users, controller_tick_eq_map _ t users, ?_, ?_⟩
  · intro f u herr
    unfold tick_one
    dsimp only
    rw [herr]
  · intro u hch hb
    unfold update_and_report_socE
    have : (set_current_time u t).is_charging = true ∧
        (set_current_time u t).battery_kwh = 0 := by
      simp [set_current_time, hch, hb]
    rw [if_pos (Or.inr this)]

/-- A charging user with zero battery capacity: `update_and_report_soc`
raises on it (float division by zero). -/
def zeroBatteryUser : User :=
  { battery_kwh := 0, charger_kw := 7, target_soc_pcnt := 80, plug_in_soc_pcnt := 20
    plug_in_datetime := 0, plug_out_datetime := 7200, current_time := 0
    event_stream := [socEvent0], is_charging := true, current_charge_pcnt := 20 }

/-- Witness for C8: ticking `zeroBatteryUser` at time 5 raises, and the
agent is left with only its clock advanced. -/
theorem C8_fault_isolation_witness :
    update_and_report_socE (set_current_time zeroBatteryUser 5) = Except.error () ∧
    tick_one update_and_report_socE 5 zeroBatteryUser =
      set_current_time zeroBatteryUser 5 := by
  have herr : update_and_report_socE (set_current_time zeroBatteryUser 5) =
      Except.error () :=
    (C8_fault_isolation 5 [zeroBatteryUser]).2.2.2 zeroBatteryUser rfl rfl
  exact ⟨herr,
    (C8_fault_isolation 5 [zeroBatteryUser]).2.2.1 update_and_report_socE
      zeroBatteryUser herr⟩

/-! ## Claim C9: the simulation loop -/

lemma run_from_eq_foldl (td : ℤ) (h : 0 < td) (e : ℤ) (c : ℤ) (us : List User) :
    Simulator.run_from td h e c us =
      (tick_times td h e c).foldl (fun acc t => Simulator.step t acc) us := by
  by_cases hc : c < e
  · rw [Simulator.run_from, tick_times]
    simp only [if_pos hc, List.foldl_cons]
    exact run_from_eq_foldl td h e (c + td) (Simulator.step c us)
  · rw [Simulator.run_from, tick_times]
    simp [if_neg hc]
termination_by (e - c).toNat
decreasing_by simp_wf; omega

lemma tick_times_mem (td : ℤ) (h : 0 < td) (e : ℤ) (c t : ℤ) :
    t ∈ tick_times td h e c ↔ ∃ k : ℕ, t = c + k * td ∧ t < e := by
  by_cases hc : c < e
  · rw [tick_times]
    simp only [if_pos hc, List.mem_cons]
    constructor
    · rintro (rfl | hmem)
      · exact ⟨0, by simp, hc⟩
      · obtain ⟨k, rfl, hlt⟩ := (tick_times_mem td h e (c + td) _).mp hmem
        exact ⟨k + 1, by push_cast; ring, hlt⟩
    · rintro ⟨k, rfl, hlt⟩
      cases k with
      | zero => left; simp
      | succ k =>
        right
        apply (tick_times_mem td h e (c + td) _).mpr
        refine ⟨k, by push_cast; ring, ?_⟩
        calc c + (↑(k + 1)) * td = c + ↑k * td + td := by push_cast; ring
        _ = c + (↑(k + 1)) * td := by push_cast; ring
        _ < e := hlt
  · rw [tick_times]
    simp only [if_neg hc, List.not_mem_nil, false_iff]
    rintro ⟨k, rfl, hlt⟩
    have hk : (0 : ℤ) ≤ (k : ℤ) * td := mul_nonneg (Int.natCast_nonneg k) (le_of_lt h)
    omega
termination_by (e - c).toNat
decreasing_by all_goals simp_wf; omega

/-- C9: for a strictly positive tick, `run` folds `_step` over exactly the
times `start, start + td, start + 2·td, ...` that are strictly before the
end time (so it terminates once the current time reaches the end time and
never runs a tick at or after it), and each `_step` applies the
controller's SOC update at the current time and then its charge-decision
update at the same time. -/
theorem C9_run_loop (td : ℤ) (h : 0 < td) (end_time start_time : ℤ)
    (users : List User) :
    Simulator.run_from td h end_time start_time users =
      (tick_times td h end_time start_time).foldl
        (fun acc t => Simulator.step t acc) users ∧
    (∀ t : ℤ, t ∈ tick_times td h end_time start_time ↔
      ∃ k : ℕ, t = start_time + k * td ∧ t < end_time) ∧
    (∀ (t : ℤ) (us : List User),
      Simulator.step t us =
        UserController.update_charge_status t (UserController.update_soc t us)) :=
  ⟨run_from_eq_foldl td h end_time start_time users,
    fun t => tick_times_mem td h end_time start_time t,
    fun _ _ => rfl⟩

lemma pos60 : (0 : ℤ) < 60 := by norm_num

/-- Witness for C9 with a 60-second tick from time 0 to time 120 over the
empty population. -/
theorem C9_run_loop_witness :
    (0 : ℤ) < 60 ∧
    (Simulator.run_from 60 pos60 120 0 [] =
        (tick_times 60 pos60 120 0).foldl (fun acc t => Simulator.step t acc) [] ∧
      (∀ t : ℤ, t ∈ tick_times 60 pos60 120 0 ↔
        ∃ k : ℕ, t = 0 + k * 60 ∧ t < 120) ∧
      (∀ (t : ℤ) (us : List User),
        Simulator.step t us =
          UserController.update_charge_status t (UserController.update_soc t us))) :=
  ⟨pos60, C9_run_loop 60 pos60 120 0 []⟩

/-! ## Claim C10: the START/STOP subsequence alternates -/

/-- The subsequence of charge-transition event kinds in a stream. -/
def charge_log (es : List Event) : List EventType :=
  (es.map (fun e => e.event_type)).filter
    (fun ty => decide (ty = EventType.START_CHARGING ∨ ty = EventType.STOP_CHARGING))

/-- `alternates b l`: `l` strictly alternates between START_CHARGING and
STOP_CHARGING, beginning with START_CHARGING when `b` is true and with
STOP_CHARGING otherwise. -/
def alternates : Bool → List EventType → Bool
  | _, [] => true
  | true, ty :: rest => decide (ty = EventType.START_CHARGING) && alternates false rest
  | false, ty :: rest => decide (ty = EventType.STOP_CHARGING) && alternates true rest

/-- The kind an alternating list starting from flag `b` expects after
consuming `l`: flipped once per element. -/
def expected_flag (b : Bool) (l : List EventType) : Bool :=
  if l.length % 2 = 0 then b else !b

lemma expected_flag_cons (b : Bool) (ty : EventType) (l : List EventType) :
    expected_flag b (ty :: l) = expected_flag (!b) l := by
  unfold expected_flag
  rcases Nat.mod_two_eq_zero_or_one l.length with hp | hp <;>
    simp [List.length_cons, Nat.add_mod, hp]

lemma expected_flag_snoc (b : Bool) (ty : EventType) (l : List EventType) :
    expected_flag b (l ++ [ty]) = !expected_flag b l := by
  unfold expected_flag
  rcases Nat.mod_two_eq_zero_or_one l.length with hp | hp <;>
    simp [List.length_append, Nat.add_mod, hp]

lemma alternates_snoc (ty : EventType) :
    ∀ (l : List EventType) (b : Bool),
      alternates b (l ++ [ty]) =
        (alternates b l &&
          (if expected_flag b l then decide (ty = EventType.START_CHARGING)
           else decide (ty = EventType.STOP_CHARGING))) := by
  intro l
  induction l with
  | nil =>
    intro b
    cases b <;> simp [alternates, expected_flag]
  | cons hd tl ih =>
    intro b
    cases b <;>
      simp [alternates, ih, expected_flag_cons, Bool.and_assoc]

lemma alternates_getLast :
    ∀ (l : List EventType) (b : Bool), alternates b l = true → l ≠ [] →
      l.getLast? =
        some (if expected_flag b l then EventType.STOP_CHARGING
              else EventType.START_CHARGING) := by
  intro l
  induction l with
  | nil => intro b _ hne; exact absurd rfl hne
  | cons hd tl ih =>
    intro b halt _
    cases tl with
    | nil =>
      cases b <;>
        simp_all [alternates, expected_flag]
    | cons hd2 tl2 =>
      have hrest : alternates (!b) (hd2 :: tl2) = true := by
        cases b <;> simp_all [alternates]
      have := ih (!b) hrest (by simp)
      rw [List.getLast?_cons_cons, this]
      simp [expected_flag_cons]

lemma charge_log_append (es1 es2 : List Event) :
    charge_log (es1 ++ es2) = charge_log es1 ++ charge_log es2 := by
  simp [charge_log]

lemma charge_log_pair_start (t : ℤ) (s : ℝ) :
    charge_log
        [⟨EventType.START_CHARGING, t, some s, none, none⟩,
         ⟨EventType.REPORT_SOC, t, some s, none, none⟩] =
      [EventType.START_CHARGING] := by
  simp [charge_log]

lemma charge_log_pair_stop (t : ℤ) (s : ℝ) :
    charge_log
        [⟨EventType.STOP_CHARGING, t, some s, none, none⟩,
         ⟨EventType.REPORT_SOC, t, some s, none, none⟩] =
      [EventType.STOP_CHARGING] := by
  simp [charge_log]

lemma charge_log_report_soc (es : List Event) (t : ℤ) (s : ℝ) :
    charge_log (append_report_soc es t s) = charge_log es := by
  simp [append_report_soc, charge_log_append, charge_log]

lemma charge_log_report_charge_status (es : List Event) (t : ℤ) (b : Bool) :
    charge_log (append_report_charge_status es t b) = charge_log es := by
  simp [append_report_charge_status, charge_log_append, charge_log]

lemma charge_log_report_power_draw (es : List Event) (t : ℤ) (kw : ℝ) :
    charge_log (append_report_power_draw es t kw) = charge_log es := by
  simp [append_report_power_draw, charge_log_append, charge_log]

/-- `_update_soc` never touches the charging flag. -/
lemma _update_soc_is_charging (u : User) :
    (User._update_soc u).is_charging = u.is_charging := by
  unfold User._update_soc
  cases last_reported_soc u.event_stream
  · rfl
  · dsimp only
    split <;> rfl

/-- `_update_soc` never touches the event stream. -/
lemma _update_soc_event_stream (u : User) :
    (User._update_soc u).event_stream = u.event_stream := by
  unfold User._update_soc
  cases last_reported_soc u.event_stream
  · rfl
  · dsimp only
    split <;> rfl

/-- The states of a `User` reachable from construction by the mutating
operations (charge transitions, tick reporting, clock updates). -/
inductive Reachable : User → Prop where
  | init (battery_kwh charger_kw target_soc_pcnt plug_in_soc_pcnt : ℝ)
      (today plug_in_time plug_out_time current_time : ℤ) :
      Reachable (mkUser battery_kwh charger_kw target_soc_pcnt plug_in_soc_pcnt
        today plug_in_time plug_out_time current_time)
  | start (u : User) : Reachable u → Reachable u.start_charging
  | stop (u : User) : Reachable u → Reachable u.stop_charging
  | report (u : User) : Reachable u → Reachable u.update_and_report_soc
  | clock (u : User) (t : ℤ) : Reachable u → Reachable (set_current_time u t)

/-- Inductive invariant: the charge subsequence alternates from START, and
the expected next kind is START exactly when the agent is not charging. -/
def ChargeInv (u : User) : Prop :=
  alternates true (charge_log u.event_stream) = true ∧
  expected_flag true (charge_log u.event_stream) = !u.is_charging

/-- `update_and_report_soc` preserves the charging flag. -/
lemma update_and_report_soc_is_charging (u : User) :
    u.update_and_report_soc.is_charging = u.is_charging := by
  unfold User.update_and_report_soc
  dsimp only
  exact _update_soc_is_charging u

/-- `update_and_report_soc` appends only report events, so the charge
subsequence is unchanged. -/
lemma update_and_report_soc_charge_log (u : User) :
    charge_log u.update_and_report_soc.event_stream =
      charge_log u.event_stream := by
  unfold User.update_and_report_soc
  dsimp only
  split <;>
    simp [charge_log_report_power_draw, charge_log_report_charge_status,
      charge_log_report_soc, _update_soc_event_stream]

lemma chargeInv_of_reachable : ∀ u : User, Reachable u → ChargeInv u := by
  intro u hr
  induction hr with
  | init b c tgt pis today pit pot ct =>
    constructor <;> simp [mkUser, charge_log, alternates, expected_flag]
  | start v _ ih =>
    obtain ⟨halt, hexp⟩ := ih
    cases hv : v.is_charging with
    | true => rw [start_charging_of_charging v hv]; exact ⟨halt, hexp⟩
    | false =>
      obtain ⟨hflag, hstream⟩ := start_charging_spec v hv
      rw [hv] at hexp
      simp only [Bool.not_false] at hexp
      have hL : charge_log v.start_charging.event_stream =
          charge_log v.event_stream ++ [EventType.START_CHARGING] := by
        rw [hstream, charge_log_append, charge_log_pair_start]
      constructor
      · rw [hL, alternates_snoc, halt, hexp]
        simp
      · rw [hL, expected_flag_snoc, hexp, hflag]
  | stop v _ ih =>
    obtain ⟨halt, hexp⟩ := ih
    cases hv : v.is_charging with
    | false => rw [stop_charging_of_not_charging v hv]; exact ⟨halt, hexp⟩
    | true =>
      obtain ⟨hflag, hstream⟩ := stop_charging_spec v hv
      rw [hv] at hexp
      simp only [Bool.not_true] at hexp
      have hL : charge_log v.stop_charging.event_stream =
          charge_log v.event_stream ++ [EventType.STOP_CHARGING] := by
        rw [hstream, charge_log_append, charge_log_pair_stop]
      constructor
      · rw [hL, alternates_snoc, halt, hexp]
        simp
      · rw [hL, expected_flag_snoc, hexp, hflag]
  | report v _ ih =>
    obtain ⟨halt, hexp⟩ := ih
    refine ⟨?_, ?_⟩
    · rw [update_and_report_soc_charge_log]
      exact halt
    · rw [update_and_report_soc_charge_log, update_and_report_soc_is_charging]
      exact hexp
  | clock v t _ ih =>
    exact ⟨ih.1, ih.2⟩

/-- C10: in every reachable state, the START_CHARGING/STOP_CHARGING
subsequence of the event stream strictly alternates beginning with
START_CHARGING, and the agent is charging exactly when that subsequence is
non-empty and ends with a START_CHARGING event. -/
theorem C10_charge_event_alternation (u : User) (hr : Reachable u) :
    alternates true (charge_log u.event_stream) = true ∧
    (u.is_charging = true ↔
      charge_log u.event_stream ≠ [] ∧
      (charge_log u.event_stream).getLast? = some EventType.START_CHARGING) := by
  obtain ⟨halt, hexp⟩ := chargeInv_of_reachable u hr
  refine ⟨halt, ?_, ?_⟩
  · intro hch
    rw [hch] at hexp
    simp only [Bool.not_true] at hexp
    have hne : charge_log u.event_stream ≠ [] := by
      intro h0
      rw [h0] at hexp
      simp [expected_flag] at hexp
    refine ⟨hne, ?_⟩
    rw [alternates_getLast _ true halt hne, hexp]
    rfl
  · rintro ⟨hne, hlast⟩
    rw [alternates_getLast _ true halt hne] at hlast
    cases hef : expected_flag true (charge_log u.event_stream) with
    | false =>
      rw [hef] at hexp
      cases hcc : u.is_charging with
      | false => rw [hcc] at hexp; simp at hexp
      | true => rfl
    | true =>
      rw [hef] at hlast
      simp at hlast

/-- Witness for C10 on the reachable state obtained by constructing a
user and starting to charge once. -/
theorem C10_charge_event_alternation_witness :
    alternates true
        (charge_log (mkUser 50 7 80 20 0 0 7200 0).start_charging.event_stream) =
      true ∧
    ((mkUser 50 7 80 20 0 0 7200 0).start_charging.is_charging = true ↔
      charge_log (mkUser 50 7 80 20 0 0 7200 0).start_charging.event_stream ≠ [] ∧
      (charge_log
          (mkUser 50 7 80 20 0 0 7200 0).start_charging.event_stream).getLast? =
        some EventType.START_CHARGING) :=
  C10_charge_event_alternation _
    (Reachable.start _ (Reachable.init 50 7 80 20 0 0 7200 0))

end EVSim
